import Mathlib

/-!
Verification of the flask-rest-toolkit authentication/serialization core.

The repository sources available are `flask_rest_toolkit/serializers.py` and
`tests/test_authentication.py`.  The authentication module
(`flask_rest_toolkit/auth.py`), the endpoint dispatcher
(`flask_rest_toolkit/endpoint.py`) and the version facade
(`flask_rest_toolkit/api.py`) are exercised by the tests but their source is
not in the tree; those parts are modelled from the specification, as marked on
each definition.
-/

namespace FlaskRestToolkit

/-- A Python-level JSON value: the universe of contents handed to the
serializers (None, bool, int, str, list, dict). -/
inductive Json where
  | null : Json
  | bool (b : Bool) : Json
  | num (n : Int) : Json
  | str (s : String) : Json
  | arr (items : List Json) : Json
  | obj (fields : List (String × Json)) : Json

/-- Escape one character the way Python's `json.dumps` does for quote and
backslash (control-character and non-ASCII escaping is out of scope: the
test data is plain ASCII). -/
def Json.escapeChar (c : Char) : String :=
  if c = '"' then "\\\""
  else if c = '\\' then "\\\\"
  else c.toString

/-- Render a JSON string literal with surrounding quotes, as `json.dumps`
does for `str` values. -/
def Json.dumpStr (s : String) : String :=
  "\"" ++ String.join (s.toList.map Json.escapeChar) ++ "\""

/-- Modelled from the spec: the Python standard library `json.dumps` with its
default separators (", " between items, ": " after keys), which the spec
treats as an external pure format conversion.  `serializers.py` delegates to
it. -/
def Json.dumps : Json → String
  | .null => "null"
  | .bool b => if b then "true" else "false"
  | .num n => toString n
  | .str s => Json.dumpStr s
  | .arr items =>
      "[" ++ String.intercalate ", " (items.attach.map (fun x => Json.dumps x.1)) ++ "]"
  | .obj fields =>
      "\x7b" ++
        String.intercalate ", "
          (fields.attach.map
            (fun kv => Json.dumpStr kv.1.1 ++ ": " ++ Json.dumps kv.1.2)) ++
      "\x7d"
decreasing_by
  · have h := List.sizeOf_lt_of_mem x.2
    simp only [Json.arr.sizeOf_spec]
    omega
  · have h1 : sizeOf kv.1 < sizeOf fields := List.sizeOf_lt_of_mem kv.2
    have h2 : sizeOf kv.1.2 < sizeOf kv.1 := by
      cases kv.1 with
      | mk a b => simp [Prod.mk.sizeOf_spec]
    simp only [Json.obj.sizeOf_spec]
    omega

/-- The Python exception a serializer method may raise. -/
inductive PyError where
  | notImplementedError : PyError
deriving DecidableEq

/-- The method table of a serializer object: each method either returns
normally or raises.  `serialize` consumes a JSON-representable content value,
`deserialize` consumes wire text. -/
structure SerializerOps where
  get_content_type : Unit → Except PyError String
  serialize : Json → Except PyError String
  deserialize : String → Except PyError Json

/-- The base `Serializer` class of `flask_rest_toolkit/serializers.py`: all
three methods raise `NotImplementedError()`. -/
def Serializer.ops : SerializerOps where
  get_content_type := fun _ => .error .notImplementedError
  serialize := fun _ => .error .notImplementedError
  deserialize := fun _ => .error .notImplementedError

/-- The `JsonSerializer` class of `flask_rest_toolkit/serializers.py`: it
overrides `get_content_type` (returning "application/json") and `serialize`
(returning `json.dumps(content)`), and inherits `deserialize` from the base
`Serializer` class unchanged. -/
def JsonSerializer.ops : SerializerOps :=
  { Serializer.ops with
    get_content_type := fun _ => .ok "application/json"
    serialize := fun content => .ok (Json.dumps content) }

/-- Claim C9: for every value `v`, `JsonSerializer.serialize v` returns
exactly `json.dumps v`, and `JsonSerializer.get_content_type ()` returns the
constant string "application/json" on every call. -/
theorem jsonSerializer_delegates_to_dumps (v : Json) :
    JsonSerializer.ops.serialize v = .ok (Json.dumps v) ∧
    JsonSerializer.ops.get_content_type () = .ok "application/json" :=
  ⟨rfl, rfl⟩

/-- Claim C10: every method of the base `Serializer` raises
`NotImplementedError`, and `JsonSerializer`, overriding only
`get_content_type` and `serialize`, inherits a `deserialize` that raises
`NotImplementedError` on every input. -/
theorem serializer_base_not_implemented (c : Json) (s : String) :
    Serializer.ops.get_content_type () = .error .notImplementedError ∧
    Serializer.ops.serialize c = .error .notImplementedError ∧
    Serializer.ops.deserialize s = .error .notImplementedError ∧
    JsonSerializer.ops.deserialize s = .error .notImplementedError :=
  ⟨rfl, rfl, rfl, rfl⟩

/-- The distinguished failure signal of the authentication core: werkzeug's
`Unauthorized` exception, which the host framework maps to HTTP 401. -/
inductive HttpError where
  | unauthorized : HttpError
deriving DecidableEq

/-- The HTTP status code the host framework produces for an error. -/
def HttpError.code : HttpError → Nat
  | .unauthorized => 401

/-- A request as seen by the strategy core: an opaque handle whose parsed
credentials field (`request.authorization`, populated by the host framework
from the `Authorization` header) is either unset or the extracted
username/password pair. -/
structure Request where
  authorization : Option (String × String)

/-- Modelled from the spec: `BasicAuth.authenticate` of the missing
`flask_rest_toolkit/auth.py`.  It reads the request's parsed credentials
field; if absent it fails with `Unauthorized` without touching the validator;
otherwise it invokes the injected `is_valid_user` predicate on the username
and password, succeeding iff the predicate returns true.  The second
component of the result is the list of validator invocations (argument
pairs, in call order), recorded so invocation-count contracts are statable. -/
def BasicAuth.authenticateRun (is_valid_user : String → String → Bool)
    (request : Request) :
    Except HttpError Unit × List (String × String) :=
  match request.authorization with
  | none => (.error .unauthorized, [])
  | some (u, p) =>
      if is_valid_user u p then (.ok (), [(u, p)])
      else (.error .unauthorized, [(u, p)])

/-- Modelled from the spec: `NoAuthorizationStrategy.authorize` of the missing
`flask_rest_toolkit/auth.py` always succeeds for every request, producing no
observable effect. -/
def NoAuthorizationStrategy.authorize (_request : Request) :
    Except HttpError Unit :=
  .ok ()

/-- Modelled from the spec: `And.authenticate` of the missing
`flask_rest_toolkit/auth.py`.  A child strategy is its `authenticate`
behaviour on the given request type; the combinator invokes each child in
list order, stopping at the first failure and re-raising it unchanged, and
succeeds when all children succeed.  The second component counts how many
children were invoked: the children invoked are exactly the first that many,
in list order. -/
def And.authenticateRun {ρ ε : Type} (strategies : List (ρ → Except ε Unit))
    (request : ρ) : Except ε Unit × Nat :=
  match strategies with
  | [] => (.ok (), 0)
  | auth :: rest =>
      match auth request with
      | .error e => (.error e, 1)
      | .ok _ =>
          let r := And.authenticateRun rest request
          (r.1, r.2 + 1)

/-- A state of the endpoint dispatch pipeline of the spec's state machine. -/
inductive PState where
  | received | authenticating | authorizing | handling | serializing
  | responded | rejected
deriving DecidableEq

/-- The wire response the host framework writes back. -/
structure HttpResponse where
  status : Nat
  body : Option String
  content_type : Option String
deriving DecidableEq

/-- Modelled from the spec: an `ApiEndpoint` of the missing
`flask_rest_toolkit/endpoint.py` — the immutable binding of HTTP method,
path, handler, authentication strategy, authorization strategy and
serializer made at registration time.  A strategy is carried as its
per-request behaviour, a serializer as its `serialize` function and declared
content type. -/
structure ApiEndpoint (α : Type) where
  http_method : String
  endpoint : String
  handler : Request → α
  authenticate : Request → Except HttpError Unit
  authorize : Request → Except HttpError Unit
  serialize : α → String
  content_type : String

/-- Modelled from the spec: the endpoint dispatch pipeline of the missing
`flask_rest_toolkit/endpoint.py`.  On a matched request it runs
authentication, then authorization, then the handler, then serialization; a
failure at either auth stage moves to the terminal `Rejected` state, which
the host framework converts into an HTTP 401 response, without invoking the
handler.  The result carries the response, the sequence of pipeline states
traversed, and the number of handler invocations. -/
def dispatchRun {α : Type} (ep : ApiEndpoint α) (request : Request) :
    HttpResponse × List PState × Nat :=
  match ep.authenticate request with
  | .error e =>
      (⟨e.code, none, none⟩, [.received, .authenticating, .rejected], 0)
  | .ok _ =>
      match ep.authorize request with
      | .error e =>
          (⟨e.code, none, none⟩,
           [.received, .authenticating, .authorizing, .rejected], 0)
      | .ok _ =>
          (⟨200, some (ep.serialize (ep.handler request)),
            some ep.content_type⟩,
           [.received, .authenticating, .authorizing, .handling,
            .serializing, .responded], 1)

/-- Modelled from the spec: the `Api` route group of the missing
`flask_rest_toolkit/api.py` — a registry constructed with a version
identifier, collecting endpoints to expose to the host framework under the
version's path prefix. -/
structure Api (α : Type) where
  version : String
  endpoints : List (ApiEndpoint α)

/-- Modelled from the spec: `Api.register_endpoint` appends an endpoint to
the group's registry. -/
def Api.register_endpoint {α : Type} (api : Api α) (ep : ApiEndpoint α) :
    Api α :=
  ⟨api.version, api.endpoints ++ [ep]⟩

/-- Modelled from the spec: the routing table an `Api` group hands to the
host framework — each registered endpoint is exposed at its path prefixed by
"/" followed by the group's version identifier (version "v1" and endpoint
"/task/basic" yield route "/v1/task/basic"). -/
def Api.routes {α : Type} (api : Api α) : List (String × String) :=
  api.endpoints.map (fun ep => (ep.http_method, "/" ++ api.version ++ ep.endpoint))

/-- The validator used by the end-to-end test fixture: the single valid user
is "testing@example.com" with password "ShowMeTheMoney". -/
def taskValidator (u p : String) : Bool :=
  u == "testing@example.com" && p == "ShowMeTheMoney"

/-- The task list the test fixture's handler returns. -/
def tasksJson : Json :=
  .arr [.obj [("id", .num 1), ("task", .str "Do the laundry")],
        .obj [("id", .num 2), ("task", .str "Do the dishes")]]

/-- The test fixture's endpoint: `GET /task/basic`, guarded by
`BasicAuth(taskValidator)` (whose authorization side is the no-op strategy),
serialized with the JSON serializer. -/
def taskEndpoint : ApiEndpoint Json where
  http_method := "GET"
  endpoint := "/task/basic"
  handler := fun _ => tasksJson
  authenticate := fun r => (BasicAuth.authenticateRun taskValidator r).1
  authorize := NoAuthorizationStrategy.authorize
  serialize := Json.dumps
  content_type := "application/json"

/-- A request carrying no Authorization header: the host framework leaves the
parsed credentials field unset. -/
def reqNone : Request := ⟨none⟩

/-- A request whose Authorization header decodes to the fixture's valid
credentials. -/
def reqValid : Request := ⟨some ("testing@example.com", "ShowMeTheMoney")⟩

/-- A child strategy that always succeeds, used to instantiate combinator
theorems. -/
def okChild : Request → Except HttpError Unit := fun _ => .ok ()

/-- A child strategy that always fails with Unauthorized, used to
instantiate combinator theorems. -/
def failChild : Request → Except HttpError Unit := fun _ => .error .unauthorized

/-- Claim C1: for every request and ordered pair of child strategies (A, B),
if A's authenticate fails with some Unauthorized failure e, then
And(A, B).authenticate fails with that same failure e unchanged and only one
child was invoked — B's authenticate is invoked zero times. -/
theorem and_short_circuits_first_failure {ρ ε : Type}
    (A B : ρ → Except ε Unit) (request : ρ) (e : ε)
    (h : A request = .error e) :
    And.authenticateRun [A, B] request = (.error e, 1) := by
  simp [And.authenticateRun, h]

/-- Witness for C1 at a concrete failing first child. -/
theorem and_short_circuits_first_failure_witness :
    failChild reqNone = .error .unauthorized ∧
    And.authenticateRun [failChild, okChild] reqNone =
      (.error .unauthorized, 1) :=
  ⟨rfl, and_short_circuits_first_failure failChild okChild reqNone
          HttpError.unauthorized rfl⟩

/-- Claim C4: And(A, B).authenticate succeeds iff both children's
authenticate succeed, and the second child is invoked (the invocation count
reaches 2) exactly when the first child has succeeded, children being
evaluated in insertion order. -/
theorem and_succeeds_iff_both_succeed {ρ ε : Type}
    (A B : ρ → Except ε Unit) (request : ρ) :
    ((And.authenticateRun [A, B] request).1 = .ok () ↔
      A request = .ok () ∧ B request = .ok ()) ∧
    ((And.authenticateRun [A, B] request).2 = 2 ↔ A request = .ok ()) := by
  cases hA : A request with
  | error e => simp [And.authenticateRun, hA]
  | ok u =>
      cases u
      cases hB : B request with
      | error e => simp [And.authenticateRun, hA, hB]
      | ok u => cases u; simp [And.authenticateRun, hA, hB]

/-- Witness for C4 at two concrete succeeding children. -/
theorem and_succeeds_iff_both_succeed_witness :
    ((And.authenticateRun [okChild, okChild] reqNone).1 = .ok () ↔
      okChild reqNone = .ok () ∧ okChild reqNone = .ok ()) ∧
    ((And.authenticateRun [okChild, okChild] reqNone).2 = 2 ↔
      okChild reqNone = .ok ()) :=
  and_succeeds_iff_both_succeed okChild okChild reqNone

/-- Claim C2: when the request's credentials field holds the pair (u, p),
BasicAuth.authenticate succeeds iff the validator returns true on (u, p),
fails with Unauthorized when it returns false, and in either case the
validator is invoked exactly once, with arguments (u, p) in that order. -/
theorem basicAuth_validates_credentials
    (is_valid_user : String → String → Bool) (u p : String)
    (request : Request) (h : request.authorization = some (u, p)) :
    ((BasicAuth.authenticateRun is_valid_user request).1 = .ok () ↔
      is_valid_user u p = true) ∧
    (is_valid_user u p = false →
      (BasicAuth.authenticateRun is_valid_user request).1 =
        .error .unauthorized) ∧
    (BasicAuth.authenticateRun is_valid_user request).2 = [(u, p)] := by
  cases hv : is_valid_user u p <;>
    simp [BasicAuth.authenticateRun, h, hv]

/-- Witness for C2 at the fixture's validator and valid credentials. -/
theorem basicAuth_validates_credentials_witness :
    reqValid.authorization = some ("testing@example.com", "ShowMeTheMoney") ∧
    (((BasicAuth.authenticateRun taskValidator reqValid).1 = .ok () ↔
        taskValidator "testing@example.com" "ShowMeTheMoney" = true) ∧
      (taskValidator "testing@example.com" "ShowMeTheMoney" = false →
        (BasicAuth.authenticateRun taskValidator reqValid).1 =
          .error .unauthorized) ∧
      (BasicAuth.authenticateRun taskValidator reqValid).2 =
        [("testing@example.com", "ShowMeTheMoney")]) :=
  ⟨rfl, basicAuth_validates_credentials taskValidator
          "testing@example.com" "ShowMeTheMoney" reqValid rfl⟩

/-- Claim C3: when the request's credentials field is absent or unset,
BasicAuth.authenticate fails with Unauthorized and the validator is invoked
zero times. -/
theorem basicAuth_absent_credentials_rejects
    (is_valid_user : String → String → Bool) (request : Request)
    (h : request.authorization = none) :
    BasicAuth.authenticateRun is_valid_user request =
      (.error .unauthorized, []) := by
  simp [BasicAuth.authenticateRun, h]

/-- Witness for C3 at a credential-less request. -/
theorem basicAuth_absent_credentials_rejects_witness :
    reqNone.authorization = none ∧
    BasicAuth.authenticateRun taskValidator reqNone =
      (.error .unauthorized, []) :=
  ⟨rfl, basicAuth_absent_credentials_rejects taskValidator reqNone rfl⟩

/-- Claim C5: when an endpoint guarded by BasicAuth sees its authentication
strategy raise Unauthorized, the dispatch pipeline ends in the terminal
Rejected state, the handler is invoked zero times, and the response status
is 401. -/
theorem basicAuth_failure_rejects_without_handler {α : Type}
    (ep : ApiEndpoint α) (is_valid_user : String → String → Bool)
    (request : Request)
    (hg : ep.authenticate =
      fun r => (BasicAuth.authenticateRun is_valid_user r).1)
    (hf : (BasicAuth.authenticateRun is_valid_user request).1 =
      .error .unauthorized) :
    (dispatchRun ep request).1.status = 401 ∧
    (dispatchRun ep request).2.1 = [.received, .authenticating, .rejected] ∧
    (dispatchRun ep request).2.2 = 0 := by
  simp [dispatchRun, hg, hf, HttpError.code]

/-- Witness for C5: the fixture endpoint on a request with no Authorization
header. -/
theorem basicAuth_failure_rejects_without_handler_witness :
    taskEndpoint.authenticate =
      (fun r => (BasicAuth.authenticateRun taskValidator r).1) ∧
    (BasicAuth.authenticateRun taskValidator reqNone).1 =
      .error .unauthorized ∧
    ((dispatchRun taskEndpoint reqNone).1.status = 401 ∧
      (dispatchRun taskEndpoint reqNone).2.1 =
        [.received, .authenticating, .rejected] ∧
      (dispatchRun taskEndpoint reqNone).2.2 = 0) :=
  ⟨rfl, rfl,
    basicAuth_failure_rejects_without_handler taskEndpoint taskValidator
      reqNone rfl rfl⟩

/-- Claim C6: on a BasicAuth-guarded endpoint, a request carrying
credentials (u, p) accepted by the validator yields response status 200 with
body equal to the bound serializer's serialization of the handler's
result. -/
theorem basicAuth_success_serializes_handler_result {α : Type}
    (ep : ApiEndpoint α) (is_valid_user : String → String → Bool)
    (u p : String) (request : Request)
    (hg : ep.authenticate =
      fun r => (BasicAuth.authenticateRun is_valid_user r).1)
    (hz : ep.authorize = NoAuthorizationStrategy.authorize)
    (hc : request.authorization = some (u, p))
    (hv : is_valid_user u p = true) :
    (dispatchRun ep request).1.status = 200 ∧
    (dispatchRun ep request).1.body =
      some (ep.serialize (ep.handler request)) := by
  simp [dispatchRun, hg, hz, BasicAuth.authenticateRun, hc, hv,
        NoAuthorizationStrategy.authorize]

/-- Witness for C6: the fixture endpoint on a request with the valid
credentials. -/
theorem basicAuth_success_serializes_handler_result_witness :
    taskEndpoint.authenticate =
      (fun r => (BasicAuth.authenticateRun taskValidator r).1) ∧
    taskEndpoint.authorize = NoAuthorizationStrategy.authorize ∧
    reqValid.authorization =
      some ("testing@example.com", "ShowMeTheMoney") ∧
    taskValidator "testing@example.com" "ShowMeTheMoney" = true ∧
    ((dispatchRun taskEndpoint reqValid).1.status = 200 ∧
      (dispatchRun taskEndpoint reqValid).1.body =
        some (taskEndpoint.serialize (taskEndpoint.handler reqValid))) :=
  ⟨rfl, rfl, rfl, by decide,
    basicAuth_success_serializes_handler_result taskEndpoint taskValidator
      "testing@example.com" "ShowMeTheMoney" reqValid rfl rfl rfl
      (by decide)⟩

/-- Claim C7: NoAuthorizationStrategy.authorize succeeds on every request,
returning no value and producing no effect, and an endpoint whose
authorization side is NoAuthorizationStrategy passes the authorization step
unconditionally once authentication has succeeded, running the pipeline to
completion. -/
theorem noAuthorization_always_authorizes {α : Type}
    (ep : ApiEndpoint α) (request : Request)
    (hz : ep.authorize = NoAuthorizationStrategy.authorize)
    (ha : ep.authenticate request = .ok ()) :
    NoAuthorizationStrategy.authorize request = .ok () ∧
    (dispatchRun ep request).2.1 =
      [.received, .authenticating, .authorizing, .handling, .serializing,
       .responded] := by
  refine ⟨rfl, ?_⟩
  simp [dispatchRun, hz, ha, NoAuthorizationStrategy.authorize]

/-- Witness for C7: the fixture endpoint on the valid request. -/
theorem noAuthorization_always_authorizes_witness :
    taskEndpoint.authorize = NoAuthorizationStrategy.authorize ∧
    taskEndpoint.authenticate reqValid = .ok () ∧
    (NoAuthorizationStrategy.authorize reqValid = .ok () ∧
      (dispatchRun taskEndpoint reqValid).2.1 =
        [.received, .authenticating, .authorizing, .handling, .serializing,
         .responded]) :=
  ⟨rfl, rfl,
    noAuthorization_always_authorizes taskEndpoint reqValid rfl rfl⟩

/-- Claim C8: every endpoint registered on an Api group constructed with
version identifier v is exposed to the host framework at its path prefixed
by "/" followed by v. -/
theorem api_routes_version_prefixed {α : Type} (api : Api α) (v : String)
    (ep : ApiEndpoint α) (hv : api.version = v) (hep : ep ∈ api.endpoints) :
    (ep.http_method, "/" ++ v ++ ep.endpoint) ∈ api.routes := by
  subst hv
  exact List.mem_map_of_mem _ hep

/-- The test fixture's Api group: version "v1" with `taskEndpoint`
registered on it. -/
def taskApi : Api Json := Api.register_endpoint ⟨"v1", []⟩ taskEndpoint

/-- Witness for C8: the fixture group exposes `GET /v1/task/basic`. -/
theorem api_routes_version_prefixed_witness :
    taskApi.version = "v1" ∧ taskEndpoint ∈ taskApi.endpoints ∧
    ("GET", "/v1/task/basic") ∈ taskApi.routes := by
  have hmem : taskEndpoint ∈ taskApi.endpoints := by
    simp [taskApi, Api.register_endpoint]
  exact ⟨rfl, hmem,
    api_routes_version_prefixed taskApi "v1" taskEndpoint rfl hmem⟩

end FlaskRestToolkit
